import Mathlib

/-!
Verification of the `rust-dhcp` repository: a shallow embedding of the
DHCP client state machine timers (`client/src/backoff.rs`,
`client/src/forthon.rs`, `client/src/client.rs`), the server request
dispatch (`server/src/server.rs`), the framed socket send discipline
(`framed/src/socket.rs`) and the mode-switchable UDP socket
(`switchable_socket/src/socket.rs`), together with theorems settling the
specification claims about them.

Machine integers that matter here (`u64` second counts, `Duration`
values) are modelled as `Nat`; none of the embedded code paths can
overflow or underflow them (backoff delays stay tiny, `Duration`
subtraction in the source is only applied where the result is
non-negative).
-/

/- ---------------------------------------------------------------------
Basic protocol data.  The `dhcp_protocol` crate sources (the `Message`
and `Options` structs and the `MessageType` enum) are not part of the
checked sources, so the records below carry exactly the fields that the
embedded functions of `client.rs` and `server.rs` read or write.
--------------------------------------------------------------------- -/

/-- IPv4 address as four octets, as `std::net::Ipv4Addr` is used by the code. -/
structure Ipv4Addr where
  o1 : Nat
  o2 : Nat
  o3 : Nat
  o4 : Nat
deriving DecidableEq, Repr

/-- Shorthand for `Ipv4Addr::new(a, b, c, d)`. -/
def Ipv4Addr.new (a b c d : Nat) : Ipv4Addr := ⟨a, b, c, d⟩

/-- The limited-broadcast address `255.255.255.255` built by
`Ipv4Addr::new(255, 255, 255, 255)` at the call sites. -/
def broadcastIp : Ipv4Addr := Ipv4Addr.new 255 255 255 255

/-- The unspecified address `0.0.0.0`; `Ipv4Addr::is_unspecified` tests for it. -/
def unspecifiedIp : Ipv4Addr := Ipv4Addr.new 0 0 0 0

/-- DHCP message types dispatched on by `server.rs` and `client.rs`
(variants of `dhcp_protocol::MessageType` that appear in the sources). -/
inductive MessageType where
  | DhcpDiscover
  | DhcpOffer
  | DhcpRequest
  | DhcpDecline
  | DhcpAck
  | DhcpNak
  | DhcpRelease
  | DhcpInform
deriving DecidableEq, Repr

/-- The DHCP option fields of `dhcp_protocol::Options` that the embedded
code reads: `client.rs` (`Configuration::from_response`) and `server.rs`
(dispatch in `GenericServer::poll`). -/
structure Options where
  subnet_mask : Option Ipv4Addr
  routers : Option (List Ipv4Addr)
  domain_name_servers : Option (List Ipv4Addr)
  static_routes : Option (List (Ipv4Addr × Ipv4Addr))
  classless_static_routes : Option (List (Ipv4Addr × Ipv4Addr × Ipv4Addr))
  dhcp_server_id : Option Ipv4Addr
  client_id : Option (List Nat)
  address_request : Option Ipv4Addr
  address_time : Option Nat
  dhcp_max_message_size : Option Nat
deriving DecidableEq, Repr

/-- The fields of `dhcp_protocol::Message` that the embedded code reads. -/
structure Message where
  your_ip_address : Ipv4Addr
  server_ip_address : Ipv4Addr
  client_ip_address : Ipv4Addr
  client_hardware_address : List Nat
  is_broadcast : Bool
  transaction_id : Nat
  options : Options
deriving DecidableEq, Repr

/- ---------------------------------------------------------------------
C5: `Configuration::from_response` (client/src/client.rs:37-62).
--------------------------------------------------------------------- -/

/-- The `Configuration` record yielded to the client consumer
(client/src/client.rs:27-35). -/
structure Configuration where
  your_ip_address : Ipv4Addr
  server_ip_address : Ipv4Addr
  subnet_mask : Option Ipv4Addr
  routers : Option (List Ipv4Addr)
  domain_name_servers : Option (List Ipv4Addr)
  static_routes : Option (List (Ipv4Addr × Ipv4Addr))
  classless_static_routes : Option (List (Ipv4Addr × Ipv4Addr × Ipv4Addr))
deriving DecidableEq, Repr

/-- Embedding of `Configuration::from_response` (client/src/client.rs:38-61):
when `classless_static_routes` is present the RFC 3442 rule clears
`routers` and `static_routes` on the response before the record is built. -/
def Configuration.from_response (response : Message) : Configuration :=
  let response :=
    if (response.options.classless_static_routes).isSome then
      { response with
          options := { response.options with routers := none, static_routes := none } }
    else response
  { your_ip_address := response.your_ip_address
    server_ip_address := response.server_ip_address
    subnet_mask := response.options.subnet_mask
    routers := response.options.routers
    domain_name_servers := response.options.domain_name_servers
    static_routes := response.options.static_routes
    classless_static_routes := response.options.classless_static_routes }

/-- Property proved for claim C5, stated over an arbitrary ACK message. -/
def ConfigurationFromResponseSpec (m : Message) : Prop :=
  let cfg := Configuration.from_response m
  ((m.options.classless_static_routes).isSome →
      cfg.routers = none ∧ cfg.static_routes = none) ∧
  (m.options.classless_static_routes = none →
      cfg.routers = m.options.routers ∧ cfg.static_routes = m.options.static_routes) ∧
  cfg.your_ip_address = m.your_ip_address ∧
  cfg.server_ip_address = m.server_ip_address ∧
  cfg.subnet_mask = m.options.subnet_mask ∧
  cfg.domain_name_servers = m.options.domain_name_servers ∧
  cfg.classless_static_routes = m.options.classless_static_routes

/-- C5: `Configuration::from_response` drops `routers` and `static_routes`
exactly when `classless_static_routes` is present, copies them unchanged
when it is absent, and always copies the addresses, subnet mask, DNS
servers and classless static routes from the response. -/
theorem configuration_from_response_rfc3442 (m : Message) :
    ConfigurationFromResponseSpec m := by
  unfold ConfigurationFromResponseSpec Configuration.from_response
  rcases h : m.options.classless_static_routes with _ | v <;>
    simp [h, Option.isSome]

/-- Sample ACK carrying a classless-static-routes option, to witness C5. -/
def sampleAckWithClassless : Message :=
  { your_ip_address := Ipv4Addr.new 192 168 0 100
    server_ip_address := Ipv4Addr.new 192 168 0 2
    client_ip_address := unspecifiedIp
    client_hardware_address := [0, 12, 41, 19, 14, 55]
    is_broadcast := false
    transaction_id := 0x12345678
    options :=
      { subnet_mask := some (Ipv4Addr.new 255 255 0 0)
        routers := some [Ipv4Addr.new 192 168 0 1]
        domain_name_servers := some [Ipv4Addr.new 192 168 0 1]
        static_routes := some [(Ipv4Addr.new 10 0 0 0, Ipv4Addr.new 192 168 0 1)]
        classless_static_routes :=
          some [(Ipv4Addr.new 192 168 0 0, Ipv4Addr.new 255 255 0 0, Ipv4Addr.new 192 168 0 1)]
        dhcp_server_id := some (Ipv4Addr.new 192 168 0 2)
        client_id := none
        address_request := none
        address_time := some 60
        dhcp_max_message_size := none } }

/-- Witness for C5 at a concrete ACK that carries classless static routes. -/
theorem configuration_from_response_rfc3442_witness :
    (sampleAckWithClassless.options.classless_static_routes).isSome ∧
      (Configuration.from_response sampleAckWithClassless).routers = none ∧
      (Configuration.from_response sampleAckWithClassless).static_routes = none := by
  refine ⟨by decide, ?_⟩
  exact (configuration_from_response_rfc3442 sampleAckWithClassless).1 (by decide)

/- ---------------------------------------------------------------------
C1: client poll in state `SelectingSent` with no response available
(client/src/client.rs:348-364, macros.rs:97-114).
--------------------------------------------------------------------- -/

/-- Client FSM states (`state::DhcpState`), as matched in `Client::poll_next`. -/
inductive DhcpState where
  | Init
  | Selecting
  | SelectingSent
  | Requesting
  | RequestingSent
  | InitReboot
  | Rebooting
  | RebootingSent
  | Bound
  | Renewing
  | RenewingSent
  | Rebinding
  | RebindingSent
deriving DecidableEq, Repr

/-- Error kinds of `std::io::ErrorKind` that the embedded code constructs
or that the claims mention. -/
inductive IoErrorKind where
  | timedOut
  | addrNotAvailable
  | writeZero
  | other
deriving DecidableEq, Repr

/-- Result of polling the `Backoff` timer stream: either the reactor has
no tick yet, or one tick `(seconds_slept, expired)` is ready.
`Backoff::poll_next` never yields `None`. -/
inductive BackoffPoll where
  | pending
  | ready (secs : Nat) (expired : Bool)
deriving DecidableEq, Repr

/-- Outcome of one dispatch arm of `Client::poll_next`: suspend
(`Poll::Pending`), loop again in a new state (`transcend` + `continue`),
or yield an error item (`Poll::Ready(Some(Err(_)))`). -/
inductive ClientPollOutcome where
  | suspend
  | continueIn (s : DhcpState)
  | yieldErr (k : IoErrorKind)
deriving DecidableEq, Repr

/-- Embedding of the `Poll::Pending` arm of the `DhcpState::SelectingSent`
case of `Client::poll_next` (client/src/client.rs:355-359): the
one-argument `poll_backoff!` macro (client/src/macros.rs:98-114) is
expanded, followed by `transcend(current, DhcpState::Selecting)` and
`continue` when the macro falls through. -/
def selectingSentOnNoResponse (tick : BackoffPoll) : ClientPollOutcome :=
  match tick with
  | .pending => .suspend
  | .ready _secs true => .yieldErr .timedOut
  | .ready _secs false => .continueIn .Selecting

/-- Counterexample to claim C1 as stated: on the expired backoff tick in
`SelectingSent` the client yields an error item of kind `TimedOut`; it
does not transition to `Init`. -/
theorem selectingSent_expired_yields_error :
    selectingSentOnNoResponse (BackoffPoll.ready 64 true)
        = ClientPollOutcome.yieldErr IoErrorKind.timedOut ∧
      selectingSentOnNoResponse (BackoffPoll.ready 64 true)
        ≠ ClientPollOutcome.continueIn DhcpState.Init := by
  decide

/-- C1 (amended): in `SelectingSent` with no response available, every
non-expired backoff tick sends the client back to `Selecting` (so the
Discover is retransmitted), while the expired tick makes `poll_next`
yield an error item of kind `TimedOut` (rather than returning to `Init`);
without a tick the poll suspends. -/
theorem selectingSent_backoff_behaviour (secs : Nat) :
    selectingSentOnNoResponse (BackoffPoll.ready secs false)
        = ClientPollOutcome.continueIn DhcpState.Selecting ∧
      selectingSentOnNoResponse (BackoffPoll.ready secs true)
        = ClientPollOutcome.yieldErr IoErrorKind.timedOut ∧
      selectingSentOnNoResponse BackoffPoll.pending = ClientPollOutcome.suspend := by
  exact ⟨rfl, rfl, rfl⟩

/- ---------------------------------------------------------------------
C8: `impl Sink<Command> for Client`, `start_send`
(client/src/client.rs:671-745).
--------------------------------------------------------------------- -/

/-- Server port constant `DHCP_PORT_SERVER` of `dhcp_protocol`. -/
def DHCP_PORT_SERVER : Nat := 67

/-- Socket address: IPv4 address and port, as `SocketAddr::new` builds it. -/
abbrev SockAddr := Ipv4Addr × Nat

/-- The part of the client `state::State` read by `start_send`:
the recorded server identifier, the assigned address and the
transaction id (accessors `dhcp_server_id`, `assigned_address`, `xid`). -/
structure ClientState where
  dhcp_server_id : Option Ipv4Addr
  assigned_address : Ipv4Addr
  xid : Nat
  is_broadcast : Bool
deriving DecidableEq, Repr

/-- The out-of-band commands of the client `Sink` (client/src/client.rs:66-77). -/
inductive Command where
  | Release (message : Option String)
  | Decline (address : Ipv4Addr) (message : Option String)
  | Inform (address : Ipv4Addr)
deriving DecidableEq, Repr

/-- Messages produced by the client-side `MessageBuilder` methods invoked in
`start_send`, recorded with the exact arguments the code passes
(the builder itself only formats them into a DHCP message). -/
inductive BuiltMessage where
  | release (xid : Nat) (assigned : Ipv4Addr) (serverId : Ipv4Addr) (message : Option String)
  | decline (xid : Nat) (address : Ipv4Addr) (serverId : Ipv4Addr) (message : Option String)
  | inform (xid : Nat) (is_broadcast : Bool) (address : Ipv4Addr)
deriving DecidableEq, Repr

/-- Embedding of `Client::start_send` (client/src/client.rs:671-745).
An `Except.error` result models the early `return Err(..)`: no message is
handed to the underlying sink and the state is untouched.  An `Except.ok`
result carries the destination and built message passed to
`io.start_send`. -/
def clientStartSend (st : ClientState) (command : Command) :
    Except IoErrorKind (SockAddr × BuiltMessage) :=
  match command with
  | .Release message =>
      match st.dhcp_server_id with
      | none => .error .addrNotAvailable
      | some dhcp_server_id =>
          let destination : SockAddr := (dhcp_server_id, DHCP_PORT_SERVER)
          .ok (destination, .release st.xid st.assigned_address dhcp_server_id message)
  | .Decline address message =>
      match st.dhcp_server_id with
      | none => .error .addrNotAvailable
      | some dhcp_server_id =>
          let destination : SockAddr := (broadcastIp, DHCP_PORT_SERVER)
          .ok (destination, .decline st.xid address dhcp_server_id message)
  | .Inform address =>
      let dhcp_server_id := match st.dhcp_server_id with
        | some dhcp_server_id => dhcp_server_id
        | none => broadcastIp
      let destination : SockAddr := (dhcp_server_id, DHCP_PORT_SERVER)
      .ok (destination, .inform st.xid st.is_broadcast address)

/-- Property proved for claim C8. -/
def StartSendSpec (st : ClientState) : Prop :=
  (st.dhcp_server_id = none →
      (∀ m, clientStartSend st (Command.Release m) = Except.error IoErrorKind.addrNotAvailable) ∧
      (∀ a m, clientStartSend st (Command.Decline a m)
          = Except.error IoErrorKind.addrNotAvailable)) ∧
  (∀ sid, st.dhcp_server_id = some sid →
      (∀ m, clientStartSend st (Command.Release m)
          = Except.ok ((sid, DHCP_PORT_SERVER),
              BuiltMessage.release st.xid st.assigned_address sid m)) ∧
      (∀ a m, clientStartSend st (Command.Decline a m)
          = Except.ok ((broadcastIp, DHCP_PORT_SERVER),
              BuiltMessage.decline st.xid a sid m)))

/-- C8: `Release` and `Decline` fail with an address-not-available error and
send nothing when no server id is recorded; with a known server id the
Release goes to `dhcp_server_id:67` and the Decline to `255.255.255.255:67`. -/
theorem start_send_release_decline (st : ClientState) : StartSendSpec st := by
  constructor
  · intro h
    exact ⟨fun m => by simp [clientStartSend, h], fun a m => by simp [clientStartSend, h]⟩
  · intro sid h
    exact ⟨fun m => by simp [clientStartSend, h], fun a m => by simp [clientStartSend, h]⟩

/-- Witness for C8 at concrete states with and without a known server id. -/
theorem start_send_release_decline_witness :
    clientStartSend ⟨none, Ipv4Addr.new 192 168 0 100, 7, false⟩ (Command.Release none)
        = Except.error IoErrorKind.addrNotAvailable ∧
      clientStartSend ⟨some (Ipv4Addr.new 192 168 0 2), Ipv4Addr.new 192 168 0 100, 7, false⟩
          (Command.Decline (Ipv4Addr.new 192 168 0 100) none)
        = Except.ok ((broadcastIp, DHCP_PORT_SERVER),
            BuiltMessage.decline 7 (Ipv4Addr.new 192 168 0 100) (Ipv4Addr.new 192 168 0 2) none) := by
  refine ⟨?_, ?_⟩
  · exact ((start_send_release_decline
      ⟨none, Ipv4Addr.new 192 168 0 100, 7, false⟩).1 rfl).1 none
  · exact (((start_send_release_decline
      ⟨some (Ipv4Addr.new 192 168 0 2), Ipv4Addr.new 192 168 0 100, 7, false⟩).2
        (Ipv4Addr.new 192 168 0 2)) rfl).2 (Ipv4Addr.new 192 168 0 100) none

/- ---------------------------------------------------------------------
C2, C3, C4: server request dispatch (server/src/server.rs:394-595).
The lease database implementation (`database.rs`) is not among the
checked sources; the dispatch is therefore parameterized over an oracle
supplying the result of each database call, and the outcome records
which calls were issued with which arguments.
--------------------------------------------------------------------- -/

/-- Errors of the server lease database (`database::Error`).  Modelled from
the spec: the source names `LeaseInvalid` explicitly (server.rs:19,514);
the remaining variants are the error kinds of spec sections 4.5.2 and 7.
Only `LeaseInvalid` versus "anything else" matters to the dispatch. -/
inductive DbError where
  | LeaseInvalid
  | NoRecord
  | AddressInUse
  | Exhausted
  | RangeInvalid
deriving DecidableEq, Repr

/-- The `database::Offer` fields read by the server (builder.rs:59-91). -/
structure DbOffer where
  address : Ipv4Addr
  lease_time : Nat
  message : String
deriving DecidableEq, Repr

/-- The `database::Ack` fields read by the server (builder.rs:95-133). -/
structure DbAck where
  address : Ipv4Addr
  lease_time : Nat
  renewal_time : Nat
  rebinding_time : Nat
  message : String
deriving DecidableEq, Repr

/-- Oracle giving the results of the lease-database operations invoked by
`GenericServer::poll`; the signatures are those of the call sites in
server.rs (allocate: 440-444, assign: 484, check: 505, renew: 532-535,
freeze: 555, deallocate: 570). -/
structure DbOracle where
  allocate : List Nat → Option Nat → Option Ipv4Addr → Except DbError DbOffer
  assign : List Nat → Ipv4Addr → Option Nat → Except DbError DbAck
  check : List Nat → Ipv4Addr → Except DbError DbAck
  renew : List Nat → Ipv4Addr → Option Nat → Except DbError DbAck
  freeze : Ipv4Addr → Except DbError Unit
  deallocate : List Nat → Ipv4Addr → Except DbError Unit

/-- A lease-database call issued by the dispatch, with its arguments. -/
inductive DbCall where
  | allocate (cid : List Nat) (time : Option Nat) (req : Option Ipv4Addr)
  | assign (cid : List Nat) (addr : Ipv4Addr) (time : Option Nat)
  | check (cid : List Nat) (addr : Ipv4Addr)
  | renew (cid : List Nat) (addr : Ipv4Addr) (time : Option Nat)
  | freeze (addr : Ipv4Addr)
  | deallocate (cid : List Nat) (addr : Ipv4Addr)
deriving DecidableEq, Repr

/-- A reply handed to `send_response`: its DHCP message type, the
destination IP chosen for it, and whether hardware unicast is required
(the bool returned by `GenericServer::destination`). -/
structure Reply where
  mtype : MessageType
  dest : Ipv4Addr
  hwUnicast : Bool
deriving DecidableEq, Repr

/-- Outcome of handling one validated request: the database calls made and
the reply sent, if any.  `panicked` models the `expect!` macro firing on a
missing `address_request` option (server/src/macros.rs:4-8). -/
inductive ServerOutcome where
  | handled (calls : List DbCall) (reply : Option Reply)
  | panicked
deriving DecidableEq, Repr

/-- Embedding of the client-identifier computation (server/src/server.rs:424-427):
the `client_id` option bytes verbatim, else the hardware address bytes. -/
def clientKey (request : Message) : List Nat :=
  match request.options.client_id with
  | some client_id => client_id
  | none => request.client_hardware_address

/-- Numeric value of `dhcp_protocol::HardwareType::Ethernet as u8`, the
byte pushed in client/src/client.rs:173; the ARPHRD Ethernet code is 1
(RFC 2132 section 9.14, cited at that line).  None of the theorems below
depend on the exact value. -/
def hardwareTypeEthernet : Nat := 1

/-- Embedding of `Client::new`'s client-id defaulting
(client/src/client.rs:168-176): an explicit id is kept, otherwise the id
is the one-byte hardware type followed by the MAC bytes. -/
def clientIdOrDefault (client_id : Option (List Nat)) (mac : List Nat) : List Nat :=
  match client_id with
  | some client_id => client_id
  | none => hardwareTypeEthernet :: mac

/-- Embedding of `GenericServer::destination` (server/src/server.rs:298-338),
with the response represented by its `your_ip_address` field (the only one
read): returns the destination IP and the hardware-unicast flag. -/
def serverDestination (request : Message) (response_yiaddr : Ipv4Addr) : Ipv4Addr × Bool :=
  if request.client_ip_address ≠ unspecifiedIp then
    (request.client_ip_address, false)
  else if request.is_broadcast then
    (broadcastIp, false)
  else
    (response_yiaddr, true)

/-- Embedding of the message-type dispatch of `GenericServer::poll`
(server/src/server.rs:430-593), after the server-identifier filter. -/
def serverDispatch (db : DbOracle) (request : Message) (mtype : MessageType) : ServerOutcome :=
  let client_id := clientKey request
  match mtype with
  | .DhcpDiscover =>
      let call := DbCall.allocate client_id request.options.address_time
        request.options.address_request
      match db.allocate client_id request.options.address_time
          request.options.address_request with
      | .ok offer =>
          let (dest, hw) := serverDestination request offer.address
          .handled [call] (some ⟨.DhcpOffer, dest, hw⟩)
      | .error _ => .handled [call] none
  | .DhcpRequest =>
      if (request.options.dhcp_server_id).isSome then
        match request.options.address_request with
        | none => .panicked
        | some address =>
            let call := DbCall.assign client_id address request.options.address_time
            match db.assign client_id address request.options.address_time with
            | .ok ack =>
                let (dest, hw) := serverDestination request ack.address
                .handled [call] (some ⟨.DhcpAck, dest, hw⟩)
            | .error _ => .handled [call] (some ⟨.DhcpNak, broadcastIp, false⟩)
      else if request.client_ip_address = unspecifiedIp then
        match request.options.address_request with
        | none => .panicked
        | some address =>
            let call := DbCall.check client_id address
            match db.check client_id address with
            | .ok ack =>
                let (dest, hw) := serverDestination request ack.address
                .handled [call] (some ⟨.DhcpAck, dest, hw⟩)
            | .error e =>
                match e with
                | .LeaseInvalid => .handled [call] (some ⟨.DhcpNak, broadcastIp, false⟩)
                | _ => .handled [call] none
      else
        let call := DbCall.renew client_id request.client_ip_address
          request.options.address_time
        match db.renew client_id request.client_ip_address request.options.address_time with
        | .ok ack =>
            let (dest, hw) := serverDestination request ack.address
            .handled [call] (some ⟨.DhcpAck, dest, hw⟩)
        | .error _ => .handled [call] none
  | .DhcpDecline =>
      match request.options.address_request with
      | none => .panicked
      | some address => .handled [DbCall.freeze address] none
  | .DhcpRelease =>
      .handled [DbCall.deallocate client_id request.client_ip_address] none
  | .DhcpInform =>
      let (dest, hw) := serverDestination request unspecifiedIp
      .handled [] (some ⟨.DhcpAck, dest, hw⟩)
  | _ => .handled [] none

/-- Embedding of one iteration of `GenericServer::poll` on a validated
request (server/src/server.rs:405-593): the server-identifier filter
(405-410) runs before the client id is computed and the type dispatch. -/
def serverHandle (serverIp : Ipv4Addr) (db : DbOracle) (request : Message)
    (mtype : MessageType) : ServerOutcome :=
  match request.options.dhcp_server_id with
  | some dhcp_server_id =>
      if dhcp_server_id ≠ serverIp then .handled [] none
      else serverDispatch db request mtype
  | none => serverDispatch db request mtype

/-- Stub database oracle whose every lookup fails with `NoRecord`; used to
instantiate theorems at concrete inputs. -/
def dbNoRecord : DbOracle :=
  { allocate := fun _ _ _ => .error .NoRecord
    assign := fun _ _ _ => .error .NoRecord
    check := fun _ _ => .error .NoRecord
    renew := fun _ _ _ => .error .NoRecord
    freeze := fun _ => .ok ()
    deallocate := fun _ _ => .error .NoRecord }

/-- C4: any message whose `dhcp_server_id` option differs from the server's
address is dropped before the dispatch: no database call is made and no
reply is sent, whatever the message type. -/
theorem server_id_filter_drops_silently (serverIp : Ipv4Addr) (db : DbOracle)
    (request : Message) (mtype : MessageType) (sid : Ipv4Addr)
    (hsid : request.options.dhcp_server_id = some sid) (hne : sid ≠ serverIp) :
    serverHandle serverIp db request mtype = ServerOutcome.handled [] none := by
  simp [serverHandle, hsid, hne]

/-- Witness for C4: a request addressed to server `192.168.0.9` handled by
the server at `192.168.0.2` produces no database call and no reply. -/
theorem server_id_filter_drops_silently_witness :
    (sampleAckWithClassless.options.dhcp_server_id = some (Ipv4Addr.new 192 168 0 2)) ∧
      serverHandle (Ipv4Addr.new 192 168 0 9) dbNoRecord sampleAckWithClassless
        MessageType.DhcpRequest = ServerOutcome.handled [] none :=
  ⟨by decide,
    server_id_filter_drops_silently (Ipv4Addr.new 192 168 0 9) dbNoRecord
      sampleAckWithClassless MessageType.DhcpRequest (Ipv4Addr.new 192 168 0 2)
      (by decide) (by decide)⟩

/-- Property proved for claim C2: outcome of an INIT-REBOOT `DhcpRequest`. -/
def InitRebootSpec (serverIp : Ipv4Addr) (db : DbOracle) (request : Message)
    (ip : Ipv4Addr) : Prop :=
  let key := clientKey request
  ∃ reply,
    serverHandle serverIp db request MessageType.DhcpRequest
        = ServerOutcome.handled [DbCall.check key ip] reply ∧
    ((∃ ack, db.check key ip = .ok ack) →
        ∃ d hw, reply = some ⟨MessageType.DhcpAck, d, hw⟩) ∧
    (reply = some ⟨MessageType.DhcpNak, broadcastIp, false⟩ ↔
        db.check key ip = .error DbError.LeaseInvalid) ∧
    (∀ e, db.check key ip = .error e → e ≠ DbError.LeaseInvalid → reply = none)

/-- C2: a validated `DhcpRequest` without a `dhcp_server_id` option and with
`ciaddr = 0.0.0.0` triggers exactly one database call,
`check(client_id, requested_ip)`; an ACK is sent on success, a NAK
broadcast to `255.255.255.255` is sent if and only if the error is
`LeaseInvalid`, and every other error (for example `NoRecord`) produces no
reply. -/
theorem init_reboot_request_dispatch (serverIp : Ipv4Addr) (db : DbOracle)
    (request : Message) (ip : Ipv4Addr)
    (hsid : request.options.dhcp_server_id = none)
    (hciaddr : request.client_ip_address = unspecifiedIp)
    (hreq : request.options.address_request = some ip) :
    InitRebootSpec serverIp db request ip := by
  unfold InitRebootSpec
  rcases hc : db.check (clientKey request) ip with e | ack
  case ok =>
    refine ⟨some ⟨MessageType.DhcpAck,
      (serverDestination request ack.address).1,
      (serverDestination request ack.address).2⟩, ?_, ?_, ?_, ?_⟩
    · simp [serverHandle, serverDispatch, hsid, hciaddr, hreq, hc]
    · intro _; exact ⟨_, _, rfl⟩
    · simp [hc]
    · intro e he; simp [hc] at he
  case error =>
    cases e with
    | LeaseInvalid =>
        refine ⟨some ⟨MessageType.DhcpNak, broadcastIp, false⟩, ?_, ?_, ?_, ?_⟩
        · simp [serverHandle, serverDispatch, hsid, hciaddr, hreq, hc]
        · intro h; rcases h with ⟨ack, hack⟩; simp [hc] at hack
        · simp [hc]
        · intro e' he' hne; rw [hc] at he'
          exact absurd (by injection he' with h; exact h.symm) hne
    | NoRecord =>
        refine ⟨none, ?_, ?_, ?_, ?_⟩
        · simp [serverHandle, serverDispatch, hsid, hciaddr, hreq, hc]
        · intro h; rcases h with ⟨ack, hack⟩; simp [hc] at hack
        · simp [hc]
        · intro _ _ _; rfl
    | AddressInUse =>
        refine ⟨none, ?_, ?_, ?_, ?_⟩
        · simp [serverHandle, serverDispatch, hsid, hciaddr, hreq, hc]
        · intro h; rcases h with ⟨ack, hack⟩; simp [hc] at hack
        · simp [hc]
        · intro _ _ _; rfl
    | Exhausted =>
        refine ⟨none, ?_, ?_, ?_, ?_⟩
        · simp [serverHandle, serverDispatch, hsid, hciaddr, hreq, hc]
        · intro h; rcases h with ⟨ack, hack⟩; simp [hc] at hack
        · simp [hc]
        · intro _ _ _; rfl
    | RangeInvalid =>
        refine ⟨none, ?_, ?_, ?_, ?_⟩
        · simp [serverHandle, serverDispatch, hsid, hciaddr, hreq, hc]
        · intro h; rcases h with ⟨ack, hack⟩; simp [hc] at hack
        · simp [hc]
        · intro _ _ _; rfl

/-- Sample INIT-REBOOT request: no server id, `ciaddr = 0.0.0.0`,
requesting `192.168.0.100`, no client-id option. -/
def sampleInitRebootRequest : Message :=
  { your_ip_address := unspecifiedIp
    server_ip_address := unspecifiedIp
    client_ip_address := unspecifiedIp
    client_hardware_address := [0, 12, 41, 19, 14, 55]
    is_broadcast := true
    transaction_id := 0x55AA55AA
    options :=
      { subnet_mask := none
        routers := none
        domain_name_servers := none
        static_routes := none
        classless_static_routes := none
        dhcp_server_id := none
        client_id := none
        address_request := some (Ipv4Addr.new 192 168 0 100)
        address_time := none
        dhcp_max_message_size := none } }

/-- Witness for C2: the sample INIT-REBOOT request against a database with
no record of the client. -/
theorem init_reboot_request_dispatch_witness :
    sampleInitRebootRequest.options.dhcp_server_id = none ∧
      sampleInitRebootRequest.client_ip_address = unspecifiedIp ∧
      sampleInitRebootRequest.options.address_request = some (Ipv4Addr.new 192 168 0 100) ∧
      InitRebootSpec (Ipv4Addr.new 192 168 0 2) dbNoRecord sampleInitRebootRequest
        (Ipv4Addr.new 192 168 0 100) :=
  ⟨rfl, rfl, rfl,
    init_reboot_request_dispatch (Ipv4Addr.new 192 168 0 2) dbNoRecord
      sampleInitRebootRequest (Ipv4Addr.new 192 168 0 100) rfl rfl rfl⟩

/-- Counterexample to claim C3 as stated: for a request without a
`client_id` option the server keys the database by the bare hardware
address bytes, not by the one-byte hardware type followed by the hardware
address, and the key therefore differs from the default client identifier
the client constructs for itself. -/
theorem clientKey_no_htype_prefix :
    clientKey sampleInitRebootRequest = [0, 12, 41, 19, 14, 55] ∧
      clientKey sampleInitRebootRequest
        ≠ hardwareTypeEthernet :: sampleInitRebootRequest.client_hardware_address ∧
      clientKey sampleInitRebootRequest
        ≠ clientIdOrDefault none sampleInitRebootRequest.client_hardware_address := by
  decide

/-- C3 (amended): the server's database key is the `client_id` option bytes
verbatim when present and the bare hardware address bytes otherwise,
whereas the client's own default identifier is the one-byte hardware type
followed by the MAC; in the defaulted case the two always differ. -/
theorem clientKey_amended (request : Message) :
    (∀ cid, request.options.client_id = some cid →
        clientKey request = cid ∧
        clientIdOrDefault request.options.client_id request.client_hardware_address = cid) ∧
    (request.options.client_id = none →
        clientKey request = request.client_hardware_address ∧
        clientIdOrDefault request.options.client_id request.client_hardware_address
          = hardwareTypeEthernet :: request.client_hardware_address ∧
        clientKey request
          ≠ clientIdOrDefault request.options.client_id request.client_hardware_address) := by
  constructor
  · intro cid h
    exact ⟨by simp [clientKey, h], by simp [clientIdOrDefault, h]⟩
  · intro h
    refine ⟨by simp [clientKey, h], by simp [clientIdOrDefault, h], ?_⟩
    simp only [clientKey, clientIdOrDefault, h]
    intro heq
    have hlen := congrArg List.length heq
    simp at hlen

/-- Witness for C3 (amended) at the sample request without a client id. -/
theorem clientKey_amended_witness :
    sampleInitRebootRequest.options.client_id = none ∧
      clientKey sampleInitRebootRequest = sampleInitRebootRequest.client_hardware_address ∧
      clientKey sampleInitRebootRequest
        ≠ clientIdOrDefault sampleInitRebootRequest.options.client_id
            sampleInitRebootRequest.client_hardware_address :=
  ⟨rfl, ((clientKey_amended sampleInitRebootRequest).2 rfl).1,
    ((clientKey_amended sampleInitRebootRequest).2 rfl).2.2⟩

/- ---------------------------------------------------------------------
C10: `SwitchableUdpSocket::switch_to` (switchable_socket/src/socket.rs:158-185)
and `Socket::mode` (74-81).
--------------------------------------------------------------------- -/

/-- Socket modes (switchable_socket/src/socket.rs:52-56). -/
inductive SocketMode where
  | Raw
  | Udp
deriving DecidableEq, Repr

/-- Either UDP or RAW inner socket (switchable_socket/src/socket.rs:68-72). -/
inductive Socket (R U : Type) where
  | raw (r : R)
  | udp (u : U)
deriving DecidableEq

/-- Embedding of `Socket::mode` (switchable_socket/src/socket.rs:74-81). -/
def Socket.mode {R U : Type} : Socket R U → SocketMode
  | .udp _ => .Udp
  | .raw _ => .Raw

/-- The `SwitchableUdpSocket` state (switchable_socket/src/socket.rs:86-92);
the `MakeSocket` factories are modelled as fallible functions of the
interface name and port, exactly the `make` signature. -/
structure SwitchableUdpSocket (R U : Type) where
  iface : String
  port : Nat
  socket : Socket R U
  make_raw : String → Nat → Except IoErrorKind R
  make_udp : String → Nat → Except IoErrorKind U

/-- Embedding of the free function `new_socket`
(switchable_socket/src/socket.rs:187-204). -/
def new_socket {R U : Type} (iface : String) (port : Nat) (mode : SocketMode)
    (make_raw : String → Nat → Except IoErrorKind R)
    (make_udp : String → Nat → Except IoErrorKind U) :
    Except IoErrorKind (Socket R U) :=
  match mode with
  | .Raw =>
      match make_raw iface port with
      | .ok socket => .ok (.raw socket)
      | .error e => .error e
  | .Udp =>
      match make_udp iface port with
      | .ok socket => .ok (.udp socket)
      | .error e => .error e

/-- Embedding of `ModeSwitch::switch_to` for `SwitchableUdpSocket`
(switchable_socket/src/socket.rs:163-176): only when the requested mode
differs from the current one is a new inner socket constructed; `?`
propagates the construction error leaving the socket in place. -/
def switch_to {R U : Type} (s : SwitchableUdpSocket R U) (mode : SocketMode) :
    Except IoErrorKind (SwitchableUdpSocket R U) :=
  if mode ≠ s.socket.mode then
    match new_socket s.iface s.port mode s.make_raw s.make_udp with
    | .ok socket => .ok { s with socket := socket }
    | .error e => .error e
  else
    .ok s

/-- C10: whenever `switch_to(mode)` succeeds, the socket is afterwards in
that mode; and when the socket is already in the requested mode,
`switch_to` returns `Ok` with the socket object unchanged (in particular
the inner socket is neither dropped nor reconstructed and the call cannot
fail). -/
theorem switch_to_mode_idempotent {R U : Type} (s : SwitchableUdpSocket R U)
    (mode : SocketMode) :
    (∀ s', switch_to s mode = .ok s' → s'.socket.mode = mode) ∧
      (s.socket.mode = mode → switch_to s mode = .ok s) := by
  constructor
  · intro s' h
    unfold switch_to at h
    by_cases hm : mode = s.socket.mode
    · simp [hm] at h
      rw [← h, hm]
    · simp [hm] at h
      rcases hn : new_socket s.iface s.port mode s.make_raw s.make_udp with e | sock
      · rw [hn] at h; exact absurd h (by simp)
      · rw [hn] at h
        simp at h
        rw [← h]
        cases mode with
        | Raw =>
            unfold new_socket at hn
            rcases hr : s.make_raw s.iface s.port with e | r <;> rw [hr] at hn <;>
              simp at hn
            rw [← hn, Socket.mode]
        | Udp =>
            unfold new_socket at hn
            rcases hr : s.make_udp s.iface s.port with e | u <;> rw [hr] at hn <;>
              simp at hn
            rw [← hn, Socket.mode]
  · intro h
    unfold switch_to
    simp [h]

/-- Sample switchable socket in UDP mode with factories that always succeed. -/
def sampleSwitchable : SwitchableUdpSocket Nat Nat :=
  { iface := "eth0"
    port := DHCP_PORT_SERVER
    socket := .udp 0
    make_raw := fun _ _ => .ok 1
    make_udp := fun _ _ => .ok 2 }

/-- Witness for C10: switching the sample socket to its current mode
returns it unchanged, and a successful switch to `Raw` leaves it in `Raw`. -/
theorem switch_to_mode_idempotent_witness :
    sampleSwitchable.socket.mode = SocketMode.Udp ∧
      switch_to sampleSwitchable SocketMode.Udp = .ok sampleSwitchable ∧
      ∀ s', switch_to sampleSwitchable SocketMode.Raw = .ok s' →
        s'.socket.mode = SocketMode.Raw :=
  ⟨rfl, (switch_to_mode_idempotent sampleSwitchable SocketMode.Udp).2 rfl,
    fun s' h => (switch_to_mode_idempotent sampleSwitchable SocketMode.Raw).1 s' h⟩

/- ---------------------------------------------------------------------
C9: `DhcpFramed` send path (framed/src/socket.rs:106-172).
--------------------------------------------------------------------- -/

/-- The single-slot pending output of `DhcpFramed`
(framed/src/socket.rs:34-36): destination address and number of bytes. -/
structure FramedState where
  pending : Option (SockAddr × Nat)
deriving DecidableEq, Repr

/-- Result of the inner socket's `poll_send_to` as observed by
`try_send_to`: still pending, or ready with the byte count, or an error. -/
inductive SendPoll where
  | pending
  | sent (n : Nat)
  | failed (k : IoErrorKind)
deriving DecidableEq, Repr

/-- Result of a `Sink` poll method: `Poll::Pending`, `Poll::Ready(Ok(()))`
or `Poll::Ready(Err(_))` carrying the error kind. -/
inductive SinkPoll where
  | pending
  | ok
  | error (k : IoErrorKind)
deriving DecidableEq, Repr

/-- Embedding of `DhcpFramed::try_send_to` (framed/src/socket.rs:111-128):
on a completed send the pending slot is cleared, then a short write is
reported as an error of kind `Other`; `ready!` propagates `Pending` and an
inner error is returned with the slot left in place. -/
def try_send_to (st : FramedState) (amount : Nat) (r : SendPoll) :
    FramedState × SinkPoll :=
  match r with
  | .pending => (st, .pending)
  | .sent n =>
      let st := { st with pending := none }
      if n ≠ amount then (st, .error .other) else (st, .ok)
  | .failed e => (st, .error e)

/-- Embedding of `poll_ready` of `Sink` for `DhcpFramed`
(framed/src/socket.rs:137-143). -/
def framedPollReady (st : FramedState) (r : SendPoll) : FramedState × SinkPoll :=
  match st.pending with
  | some (_, amount) => try_send_to st amount r
  | none => (st, .ok)

/-- Embedding of `poll_flush` of `Sink` for `DhcpFramed`
(framed/src/socket.rs:157-163); its body is identical to `poll_ready`. -/
def framedPollFlush (st : FramedState) (r : SendPoll) : FramedState × SinkPoll :=
  match st.pending with
  | some (_, amount) => try_send_to st amount r
  | none => (st, .ok)

/-- Counterexample to claim C9 as stated: a short write (200 of 300 bytes)
makes `poll_ready` fail with an error of kind `Other`, not of kind
write-zero. -/
theorem framed_short_write_kind_other :
    framedPollReady ⟨some ((broadcastIp, 68), 300)⟩ (SendPoll.sent 200)
        = (⟨none⟩, SinkPoll.error IoErrorKind.other) ∧
      SinkPoll.error IoErrorKind.other ≠ SinkPoll.error IoErrorKind.writeZero := by
  decide

/-- Property proved for claim C9 (amended). -/
def FramedSendSpec (st : FramedState) : Prop :=
  (st.pending = none →
      ∀ r, framedPollReady st r = (st, .ok) ∧ framedPollFlush st r = (st, .ok)) ∧
  (∀ addr n, st.pending = some (addr, n) →
      (framedPollReady st .pending = (st, .pending) ∧
        framedPollFlush st .pending = (st, .pending)) ∧
      (framedPollReady st (.sent n) = (⟨none⟩, .ok) ∧
        framedPollFlush st (.sent n) = (⟨none⟩, .ok)) ∧
      (∀ m, m ≠ n →
        framedPollReady st (.sent m) = (⟨none⟩, .error .other) ∧
          framedPollFlush st (.sent m) = (⟨none⟩, .error .other)))

/-- C9 (amended): with no pending datagram `poll_ready`/`poll_flush`
return `Ok` at once; with a pending datagram of `n` bytes they complete
the send and clear the slot when the socket reports `n` bytes, and when
the socket reports any other count they clear the slot and fail with an
error of kind `Other` (the source's "failed to write entire datagram"
error), not write-zero. -/
theorem framed_send_discipline (st : FramedState) : FramedSendSpec st := by
  constructor
  · intro h r
    constructor <;> simp [framedPollReady, framedPollFlush, h]
  · intro addr n h
    refine ⟨?_, ?_, ?_⟩
    · constructor <;> simp [framedPollReady, framedPollFlush, h, try_send_to]
    · constructor <;> simp [framedPollReady, framedPollFlush, h, try_send_to]
    · intro m hm
      constructor <;> simp [framedPollReady, framedPollFlush, h, try_send_to, hm]

/-- Witness for C9 (amended) at a concrete pending datagram of 300 bytes. -/
theorem framed_send_discipline_witness :
    (⟨some ((broadcastIp, 68), 300)⟩ : FramedState).pending = some ((broadcastIp, 68), 300) ∧
      framedPollReady ⟨some ((broadcastIp, 68), 300)⟩ (SendPoll.sent 300)
        = (⟨none⟩, SinkPoll.ok) :=
  ⟨rfl, (((framed_send_discipline ⟨some ((broadcastIp, 68), 300)⟩).2
      (broadcastIp, 68) 300 rfl).2.1).1⟩

/- ---------------------------------------------------------------------
C6: the `Backoff` stream (client/src/backoff.rs:48-95).
--------------------------------------------------------------------- -/

/-- Embedding of `Backoff::randomize` (client/src/backoff.rs:68-78) for a
whole-second duration `d` and a drawn offset `o` (the `gen_range`
result, a value in `[-AMPLITUDE, AMPLITUDE] = [-1, 1]`): add the offset
when positive, subtract it when negative. -/
def randomize (d : Nat) (o : Int) : Nat :=
  if 0 < o then d + o.toNat else d - (-o).toNat

/-- Un-randomized `current` delay of the `Backoff` stream before tick `n`:
`Backoff::new` starts it at `minimal` (backoff.rs:60) and each
`poll_next` doubles it (backoff.rs:90). -/
def backoffCurrent (minimal : Nat) : Nat → Nat
  | 0 => minimal
  | n + 1 => backoffCurrent minimal n * 2

/-- The pair yielded by the `n`-th `Backoff::poll_next` tick
(backoff.rs:85-94) given the stream of random offsets `off`: the seconds
actually slept (the randomized previous `current`) and the expiration
flag `current > maximal` computed after doubling. -/
def backoffYield (minimal maximal : Nat) (off : Nat → Int) (n : Nat) : Nat × Bool :=
  (randomize (backoffCurrent minimal n) (off n),
    decide (maximal < backoffCurrent minimal (n + 1)))

/-- Closed form of the un-randomized delay. -/
theorem backoffCurrent_eq (minimal n : Nat) :
    backoffCurrent minimal n = minimal * 2 ^ n := by
  induction n with
  | zero => simp [backoffCurrent]
  | succ n ih => rw [backoffCurrent, ih, pow_succ, mul_assoc]

/-- Counterexample to claim C6 as stated: the un-randomized delay is not
capped at 64 seconds — at tick 5 (with zero random offsets) the stream
sleeps 128 seconds, a value outside `{4, 8, 16, 32, 64}`. -/
theorem backoff_not_capped :
    backoffCurrent 4 5 = 128 ∧
      backoffCurrent 4 5 ∉ ([4, 8, 16, 32, 64] : List Nat) ∧
      backoffYield 4 64 (fun _ => 0) 5 = (128, true) := by
  decide

/-- Property proved for claim C6 (amended), for the tick index `n`. -/
def BackoffSpec (off : Nat → Int) (n : Nat) : Prop :=
  let current := backoffCurrent 4 n
  let y := backoffYield 4 64 off n
  (n ≤ 4 → current ∈ ([4, 8, 16, 32, 64] : List Nat)) ∧
  (current - 1 ≤ y.1 ∧ y.1 ≤ current + 1) ∧
  (y.2 = true ↔ 4 ≤ n)

/-- C6 (amended): for `Backoff::new(4 s, 64 s)` the un-randomized delay
takes exactly the values 4, 8, 16, 32, 64 on the ticks up to and
including the first expired one (there is no cap: later ticks keep
doubling); every yielded `seconds_slept` is within one second of that
tick's un-randomized delay; and the yielded `expired` flag is true
exactly from the tick whose doubled successor delay exceeds 64 s — the
64-second tick, index 4 — onwards. -/
theorem backoff_behaviour (off : Nat → Int) (n : Nat)
    (hlo : -1 ≤ off n) (hhi : off n ≤ 1) : BackoffSpec off n := by
  unfold BackoffSpec backoffYield
  refine ⟨?_, ?_, ?_⟩
  · intro hn
    interval_cases n <;> decide
  · have hc4 : 4 ≤ backoffCurrent 4 n := by
      rw [backoffCurrent_eq]
      calc 4 = 4 * 1 := by norm_num
        _ ≤ 4 * 2 ^ n := by
            have : (1 : Nat) ≤ 2 ^ n := Nat.one_le_two_pow
            exact Nat.mul_le_mul_left 4 this
    unfold randomize
    interval_cases h : off n <;> simp <;> omega
  · simp only [decide_eq_true_eq]
    rw [backoffCurrent_eq]
    constructor
    · intro h
      by_contra hn
      push_neg at hn
      have hn3 : n ≤ 3 := by omega
      have : (2 : Nat) ^ (n + 1) ≤ 2 ^ 4 :=
        Nat.pow_le_pow_right (by norm_num) (by omega)
      omega
    · intro h
      have : (2 : Nat) ^ 5 ≤ 2 ^ (n + 1) :=
        Nat.pow_le_pow_right (by norm_num) (by omega)
      omega

/-- Witness for C6 (amended) at tick 2 with zero random offsets. -/
theorem backoff_behaviour_witness :
    (-1 : Int) ≤ 0 ∧ (0 : Int) ≤ 1 ∧ BackoffSpec (fun _ => 0) 2 :=
  ⟨by decide, by decide, backoff_behaviour (fun _ => 0) 2 (by decide) (by decide)⟩

/- ---------------------------------------------------------------------
C7: the `Forthon` (halving-until-deadline) stream
(client/src/forthon.rs:28-102).  Durations are nanosecond counts.
--------------------------------------------------------------------- -/

/-- The `ForthonState` record (client/src/forthon.rs:28-37). -/
structure ForthonState where
  left : Nat
  sleep : Nat
  minimal : Nat
  expired : Bool
deriving DecidableEq, Repr

/-- Embedding of `ForthonState::new` (client/src/forthon.rs:40-53). -/
def ForthonState.new (deadline minimal : Nat) : ForthonState :=
  let p := if deadline < minimal * 2 then (deadline, true) else (deadline / 2, false)
  { left := deadline - p.1, sleep := p.1, minimal := minimal, expired := p.2 }

/-- Embedding of `ForthonState::next` (client/src/forthon.rs:55-64): the
expired flag is set in the short-remainder branch and kept otherwise. -/
def ForthonState.next (s : ForthonState) : ForthonState :=
  let p := if s.left < s.minimal * 2 then (s.left, true) else (s.left / 2, s.expired)
  { left := s.left - p.1, sleep := p.1, minimal := s.minimal, expired := p.2 }

/-- State of the `Forthon` stream read by the `k`-th `poll_next` tick
(forthon.rs:89-101): the constructor state for tick 0, advanced by
`next` for each later tick (the stream only advances while not expired,
and every tick yields `(state.sleep, state.expired)`). -/
def forthonStates (deadline minimal : Nat) : Nat → ForthonState
  | 0 => ForthonState.new deadline minimal
  | n + 1 => (forthonStates deadline minimal n).next

/-- Remaining time until the deadline just before tick `k` is computed. -/
def forthonLeftBefore (deadline minimal : Nat) : Nat → Nat
  | 0 => deadline
  | n + 1 => (forthonStates deadline minimal n).left

/-- The `minimal` field is constant along the run. -/
theorem forthonStates_minimal (d m : Nat) (k : Nat) :
    (forthonStates d m k).minimal = m := by
  induction k with
  | zero =>
      unfold forthonStates ForthonState.new
      by_cases h : d < m * 2 <;> simp [h]
  | succ k ih =>
      unfold forthonStates ForthonState.next
      by_cases h : (forthonStates d m k).left < (forthonStates d m k).minimal * 2 <;>
        simp [h, ih]

/-- Advancing a non-expired state is the same as constructing a fresh state
from its remaining time. -/
theorem ForthonState.next_eq_new (s : ForthonState) (h : s.expired = false) :
    s.next = ForthonState.new s.left s.minimal := by
  unfold ForthonState.next ForthonState.new
  by_cases hlt : s.left < s.minimal * 2 <;> simp [hlt, h]

/-- The freshly constructed state is expired exactly when the deadline is
below twice the minimum. -/
theorem ForthonState.new_expired (l m : Nat) :
    (ForthonState.new l m).expired = true ↔ l < m * 2 := by
  unfold ForthonState.new
  by_cases h : l < m * 2 <;> simp [h]

/-- Sleep and remaining time of a fresh expired state. -/
theorem ForthonState.new_sleep_of_expired (l m : Nat) (h : l < m * 2) :
    (ForthonState.new l m).sleep = l ∧ (ForthonState.new l m).left = 0 := by
  unfold ForthonState.new
  simp [h]

/-- Sleep and remaining time of a fresh non-expired state. -/
theorem ForthonState.new_sleep_of_not_expired (l m : Nat) (h : ¬ l < m * 2) :
    (ForthonState.new l m).sleep = l / 2 ∧
      (ForthonState.new l m).left = l - l / 2 ∧
      m ≤ (ForthonState.new l m).sleep := by
  unfold ForthonState.new
  refine ⟨by simp [h], by simp [h], ?_⟩
  simp only [h, if_false]
  exact (Nat.le_div_iff_mul_le (by norm_num)).mpr (le_of_not_lt h)

/-- The fresh state never sleeps longer than the remaining time. -/
theorem ForthonState.new_sleep_le (l m : Nat) :
    (ForthonState.new l m).sleep ≤ l := by
  unfold ForthonState.new
  by_cases h : l < m * 2 <;> simp [h]
  exact Nat.div_le_self l 2

/-- The fresh state's remaining time is what is left after its sleep. -/
theorem ForthonState.new_left_eq (l m : Nat) :
    (ForthonState.new l m).left = l - (ForthonState.new l m).sleep := by
  unfold ForthonState.new
  by_cases h : l < m * 2 <;> simp [h]

/-- As long as no earlier tick was expired, the tick state is the fresh
state built from the remaining time. -/
theorem forthonStates_eq_new (d m : Nat) (k : Nat)
    (h : ∀ j, j < k → (forthonStates d m j).expired = false) :
    forthonStates d m k = ForthonState.new (forthonLeftBefore d m k) m := by
  induction k with
  | zero => rfl
  | succ k ih =>
      have hk : (forthonStates d m k).expired = false := h k (Nat.lt_succ_self k)
      have hprev : ∀ j, j < k → (forthonStates d m j).expired = false :=
        fun j hj => h j (Nat.lt_succ_of_lt hj)
      show (forthonStates d m k).next = _
      rw [ForthonState.next_eq_new _ hk, forthonStates_minimal]
      rfl

/-- Stepping once and then running equals running with the shorter deadline:
used to find the expired tick by strong induction. -/
theorem forthonStates_shift (d m : Nat)
    (h0 : (ForthonState.new d m).expired = false) (k : Nat) :
    forthonStates d m (k + 1) = forthonStates (ForthonState.new d m).left m k := by
  induction k with
  | zero =>
      show (ForthonState.new d m).next = _
      rw [ForthonState.next_eq_new _ h0]
      have hmm : (ForthonState.new d m).minimal = m := forthonStates_minimal d m 0
      rw [hmm]
      rfl
  | succ k ih =>
      show (forthonStates d m (k + 1)).next = (forthonStates _ m k).next
      rw [ih]

/-- With a positive minimum the stream reaches an expired tick. -/
theorem forthon_exists_expired (m : Nat) (hm : 0 < m) :
    ∀ d, ∃ k, (forthonStates d m k).expired = true := by
  intro d
  induction d using Nat.strong_induction_on with
  | _ d ih =>
      by_cases hd : d < m * 2
      · exact ⟨0, (ForthonState.new_expired d m).mpr hd⟩
      · have h0 : (ForthonState.new d m).expired = false := by
          rcases hne : (ForthonState.new d m).expired with _ | _
          · rfl
          · exact absurd (le_of_not_lt hd)
              (not_le_of_lt ((ForthonState.new_expired d m).mp hne))
        have hleft : (ForthonState.new d m).left = d - d / 2 := by
          rw [(ForthonState.new_sleep_of_not_expired d m hd).2.1]
        have hlt : (ForthonState.new d m).left < d := by
          rw [hleft]
          have h2 : 1 ≤ d / 2 := by
            have : 2 ≤ d := le_trans (by omega) (le_of_not_lt hd)
            omega
          omega
        rcases ih _ hlt with ⟨k, hk⟩
        exact ⟨k + 1, by rw [forthonStates_shift d m h0 k]; exact hk⟩

/-- Running sum of yielded sleeps plus remaining time is the deadline. -/
theorem forthon_sum_left (d m : Nat) (k : Nat)
    (h : ∀ j, j < k → (forthonStates d m j).expired = false) :
    (((List.range (k + 1)).map fun j => (forthonStates d m j).sleep).sum
        + (forthonStates d m k).left) = d := by
  induction k with
  | zero =>
      have hle := ForthonState.new_sleep_le d m
      have hleft := ForthonState.new_left_eq d m
      have hs0 : (forthonStates d m 0).sleep = (ForthonState.new d m).sleep := rfl
      have hl0 : (forthonStates d m 0).left = (ForthonState.new d m).left := rfl
      simp only [List.range_succ, List.range_zero, List.map_append, List.map_cons,
        List.map_nil, List.sum_append, List.sum_cons, List.sum_nil, List.nil_append]
      omega
  | succ k ih =>
      have hk : (forthonStates d m k).expired = false := h k (Nat.lt_succ_self k)
      have hprev : ∀ j, j < k → (forthonStates d m j).expired = false :=
        fun j hj => h j (Nat.lt_succ_of_lt hj)
      have hstep : forthonStates d m (k + 1)
          = ForthonState.new (forthonStates d m k).left m := by
        show (forthonStates d m k).next = _
        rw [ForthonState.next_eq_new _ hk, forthonStates_minimal]
      have hle : (forthonStates d m (k + 1)).sleep ≤ (forthonStates d m k).left := by
        rw [hstep]; exact ForthonState.new_sleep_le _ m
      have hleft : (forthonStates d m (k + 1)).left
          = (forthonStates d m k).left - (forthonStates d m (k + 1)).sleep := by
        rw [hstep]; exact ForthonState.new_left_eq _ m
      have ihs := ih hprev
      rw [List.range_succ, List.map_append, List.sum_append]
      simp only [List.map_cons, List.map_nil, List.sum_cons, List.sum_nil]
      omega

/-- Property proved for claim C7. -/
def ForthonSpec (d m : Nat) : Prop :=
  ∃ N,
    (∀ k, k < N →
        (forthonStates d m k).expired = false ∧
        ¬ forthonLeftBefore d m k < m * 2 ∧
        (forthonStates d m k).sleep = forthonLeftBefore d m k / 2 ∧
        m ≤ (forthonStates d m k).sleep ∧
        (forthonStates d m k).left
          = forthonLeftBefore d m k - (forthonStates d m k).sleep) ∧
    (forthonStates d m N).expired = true ∧
    forthonLeftBefore d m N < m * 2 ∧
    (forthonStates d m N).sleep = forthonLeftBefore d m N ∧
    (((List.range (N + 1)).map fun k => (forthonStates d m k).sleep).sum = d)

/-- C7: for a `Forthon` timer with deadline `d` and positive minimum `m`,
each tick before the first expired one sleeps half the remaining time
(at least `m`) and decrements the remainder by that amount; the first
expired tick occurs exactly when the remainder drops below `2·m`, sleeps
the whole remainder and yields `expired = true`; and the yielded sleeps
sum to exactly `d`. -/
theorem forthon_halving (d m : Nat) (hm : 0 < m) : ForthonSpec d m := by
  have hex := forthon_exists_expired m hm d
  classical
  refine ⟨Nat.find hex, ?_, Nat.find_spec hex, ?_, ?_, ?_⟩
  · intro k hk
    have hkexp : (forthonStates d m k).expired = false := by
      have := Nat.find_min hex hk
      rcases hne : (forthonStates d m k).expired with _ | _
      · rfl
      · exact absurd hne this
    have hprev : ∀ j, j < k → (forthonStates d m j).expired = false := by
      intro j hj
      have := Nat.find_min hex (lt_trans hj hk)
      rcases hne : (forthonStates d m j).expired with _ | _
      · rfl
      · exact absurd hne this
    have heq := forthonStates_eq_new d m k hprev
    have hnot : ¬ forthonLeftBefore d m k < m * 2 := by
      intro hcon
      rw [heq] at hkexp
      rw [(ForthonState.new_expired _ m).mpr hcon] at hkexp
      exact absurd hkexp (by decide)
    rcases ForthonState.new_sleep_of_not_expired (forthonLeftBefore d m k) m hnot with
      ⟨hs, hl, hms⟩
    refine ⟨hkexp, hnot, ?_, ?_, ?_⟩
    · rw [heq]; exact hs
    · rw [heq]; exact hms
    · rw [heq, ForthonState.new_left_eq]
  · have hprev : ∀ j, j < Nat.find hex → (forthonStates d m j).expired = false := by
      intro j hj
      have := Nat.find_min hex hj
      rcases hne : (forthonStates d m j).expired with _ | _
      · rfl
      · exact absurd hne this
    have heq := forthonStates_eq_new d m (Nat.find hex) hprev
    have hexp := Nat.find_spec hex
    rw [heq] at hexp
    exact (ForthonState.new_expired _ m).mp hexp
  · have hprev : ∀ j, j < Nat.find hex → (forthonStates d m j).expired = false := by
      intro j hj
      have := Nat.find_min hex hj
      rcases hne : (forthonStates d m j).expired with _ | _
      · rfl
      · exact absurd hne this
    have heq := forthonStates_eq_new d m (Nat.find hex) hprev
    have hexp := Nat.find_spec hex
    rw [heq] at hexp ⊢
    exact (ForthonState.new_sleep_of_expired _ m
      ((ForthonState.new_expired _ m).mp hexp)).1
  · have hprev : ∀ j, j < Nat.find hex → (forthonStates d m j).expired = false := by
      intro j hj
      have := Nat.find_min hex hj
      rcases hne : (forthonStates d m j).expired with _ | _
      · rfl
      · exact absurd hne this
    have hsum := forthon_sum_left d m (Nat.find hex) hprev
    have heq := forthonStates_eq_new d m (Nat.find hex) hprev
    have hexp := Nat.find_spec hex
    rw [heq] at hexp
    have hzero : (forthonStates d m (Nat.find hex)).left = 0 := by
      rw [heq]
      exact (ForthonState.new_sleep_of_expired _ m
        ((ForthonState.new_expired _ m).mp hexp)).2
    omega

/-- Witness for C7 at deadline 300 and minimum 60. -/
theorem forthon_halving_witness : 0 < 60 ∧ ForthonSpec 300 60 :=
  ⟨by decide, forthon_halving 300 60 (by decide)⟩
